import Mathlib

/-!
Verification development for the TotesMatriz CRM backend.

The repository's controllers (Gin HTTP handlers under `controllers/`) are
embedded shallowly: each handler becomes a pure Lean function from the
request environment (the outcome of each external call it makes: the audit
log writer, the permission check, JSON binding, and the entity service) to
the trace of calls it performed together with the HTTP response it wrote,
if any.  A handler that returns without calling `c.JSON` produces `none`
for the response: Gin then closes the connection with an implicit empty
200, which is exactly the "silent denial" behaviour several controllers
exhibit.

The service layer, the `config` permission-id constants, the authorization
utility and the audit-log utility are not part of the supplied source
(only the controllers are); where a claim depends on them they are
modelled from the specification, and each such definition is marked
`Modelled from the spec:` in its doc comment.
-/

namespace Totes

/-! ## Permission-id constants

The `config` package is not under the supplied source; the controllers use
its symbolic constants only as opaque identifiers passed to
`CheckPermission`.  The numeric values below are arbitrary but distinct. -/

def PERMISSION_GET_USER_BY_ID : Nat := 1
def PERMISSION_GET_ALL_USERS : Nat := 2
def PERMISSION_SEARCH_USER_BY_ID : Nat := 3
def PERMISSION_SEARCH_USERS_BY_EMAIL : Nat := 4
def PERMISSION_UPDATE_USER_STATE : Nat := 5
def PERMISSION_UPDATE_USER : Nat := 6
def PERMISSION_CREATE_USER : Nat := 7
def PERMISSION_GET_APPOINTMENT_BY_ID : Nat := 8
def PERMISSION_GET_ALL_APPOINTMENTS : Nat := 9
def PERMISSION_SEARCH_APPOINTMENTS_BY_ID : Nat := 10
def PERMISSION_GET_ROLE_BY_ID : Nat := 11
def PERMISSION_GET_USER_STATE_TYPE_BY_ID : Nat := 12
def PERMISSION_CALCULATE_SUBTOTAL : Nat := 13
def PERMISSION_CREATE_EMPLOYEE : Nat := 14
def PERMISSION_GET_ADDITIONAL_EXPENSE_BY_ID : Nat := 15

/-! ## Entities and DTOs

Model sources are not under the supplied source tree (the `models/`
directory holds only `identifier_type.go`); the fields below are the ones
the controllers read and write.  Go `float64` price fields are carried
opaquely as integers: no arithmetic on them is modelled. -/

/-- `models.User`: fields as read/written by `UserController`. -/
structure User where
  id : Int
  email : String
  password : String
  userTypeID : Int
  userStateTypeID : Int
deriving DecidableEq, Repr

/-- `dtos.GetUserDTO` as populated by `UserController`. -/
structure GetUserDTO where
  id : Int
  email : String
  password : String
  userTypeID : Int
  userStateID : Int
deriving DecidableEq, Repr

/-- `dtos.CreateUserDTO` as read by `UserController.CreateUser`. -/
structure CreateUserDTO where
  email : String
  password : String
  userTypeID : Int
  userStateID : Int
deriving DecidableEq, Repr

/-- `dtos.UpdateUserDTO` as read by `UserController.UpdateUser`. -/
structure UpdateUserDTO where
  email : String
  password : String
  userTypeID : Int
  userStateID : Int
deriving DecidableEq, Repr

/-- `models.Employee`: fields as used by `EmployeeController`. -/
structure Employee where
  id : Int
  names : String
  lastNames : String
  personalID : String
  address : String
  phoneNumbers : String
  userID : Int
  identifierTypeID : Int
deriving DecidableEq, Repr

/-- `dtos.CreateEmployeeDTO` as read by `EmployeeController.CreateEmployee`. -/
structure CreateEmployeeDTO where
  names : String
  lastNames : String
  personalID : String
  address : String
  phoneNumbers : String
  userID : Int
  identifierTypeID : Int
deriving DecidableEq, Repr

/-- `dtos.GetEmployeeDTO` as populated by `EmployeeController`. -/
structure GetEmployeeDTO where
  id : Int
  names : String
  lastNames : String
  personalID : String
  address : String
  phoneNumbers : String
  userID : Int
  identifierTypeID : Int
deriving DecidableEq, Repr

/-- `models.Appointment`: carried opaquely by `AppointmentController`
(the controller serializes the entity as-is). -/
structure Appointment where
  id : Int
  customerID : Int
  state : String
deriving DecidableEq, Repr

/-- `models.AdditionalExpense`: carried opaquely by its controller. -/
structure AdditionalExpense where
  id : Int
  name : String
  expense : Int
deriving DecidableEq, Repr

/-- `models.UserStateType`: carried opaquely by its controller. -/
structure UserStateType where
  id : Int
  name : String
deriving DecidableEq, Repr

/-- `models.Item`: fields as read by `ItemController`. -/
structure Item where
  id : Int
  name : String
  description : String
  stock : Int
  sellingPrice : Int
  purchasePrice : Int
  itemState : Int
  itemTypeID : Int
  additionalExpenses : List AdditionalExpense
deriving DecidableEq, Repr

/-- `dtos.GetItemDTO` as populated by `ItemController` (additional
expenses are flattened to their ids). -/
structure GetItemDTO where
  id : Int
  name : String
  description : String
  stock : Int
  sellingPrice : Int
  purchasePrice : Int
  itemState : Int
  itemTypeID : Int
  additionalExpenses : List Int
deriving DecidableEq, Repr

/-- `dtos.BillingItemDTO`: carried opaquely by `BillingController`. -/
structure BillingItemDTO where
  itemID : Int
  quantity : Int
deriving DecidableEq, Repr

/-- `models.Role` as read by `RoleController` (distinct from the
spec-side `Role` of the authorization model below). -/
structure RoleRec where
  id : Nat
  name : String
  description : String
deriving DecidableEq, Repr

/-- `dtos.RoleDTO` as populated by `RoleController.GetRoleByID`
(permission ids rendered as decimal strings). -/
structure RoleDTO where
  id : Nat
  name : String
  description : String
  permissions : List String
deriving DecidableEq, Repr

/-! ## Responses, traces and the request environment -/

/-- The JSON bodies the embedded handlers write. -/
inductive Body where
  /-- A failure object with a single "error" string field. -/
  | errObj (msg : String)
  /-- A failure object with an "error" field plus a "details" field
  (used by `EmployeeController`). -/
  | errDetails (msg details : String)
  /-- An object with a single "message" string field (used by the
  empty-search-result paths). -/
  | msgObj (msg : String)
  | userDTO (u : GetUserDTO)
  | userDTOs (l : List GetUserDTO)
  | employeeDTO (e : GetEmployeeDTO)
  | itemDTO (i : GetItemDTO)
  | itemDTOs (l : List GetItemDTO)
  | appointmentObj (a : Appointment)
  | appointmentList (l : List Appointment)
  | expenseObj (e : AdditionalExpense)
  | userStateTypeObj (u : UserStateType)
  /-- An object with a single numeric "subtotal" field. -/
  | subtotalObj (v : Int)
  | roleDTOObj (r : RoleDTO)
  /-- A JSON null payload (Gin serializing a nil pointer). -/
  | nullObj
deriving DecidableEq, Repr

/-- An HTTP response written through `c.JSON(status, body)`. -/
structure Response where
  status : Nat
  body : Body
deriving DecidableEq, Repr

/-- One observable external call made by a handler. -/
inductive Event where
  /-- A `RegisterLog` call; `ok` is false when the writer returned an
  error (in which case no audit entry was recorded). -/
  | registerLog (msg : String) (ok : Bool)
  /-- A `CheckPermission` call and its verdict. -/
  | checkPermission (pid : Nat) (granted : Bool)
  /-- An entity-service invocation. -/
  | serviceCall (name : String)
deriving DecidableEq, Repr

/-- Whether an event is a successfully recorded audit entry. -/
def Event.isRecordedLog : Event → Bool
  | .registerLog _ ok => ok
  | _ => false

/-- Whether an event is a permission check. -/
def Event.isPermCheck : Event → Bool
  | .checkPermission _ _ => true
  | _ => false

/-- Whether an event is a `RegisterLog` call, successful or not. -/
def Event.isLogCall : Event → Bool
  | .registerLog _ _ => true
  | _ => false

/-- Whether an event is a service invocation. -/
def Event.isServiceCall : Event → Bool
  | .serviceCall _ => true
  | _ => false

/-- The per-request environment: outcomes of the two cross-cutting
collaborators.  `logErr msg` is true when the audit-log write for `msg`
fails; `perm pid` is the verdict of `AuthorizationUtil.CheckPermission`
for the fixed permission id `pid`. -/
structure Env where
  logErr : String → Bool
  perm : Nat → Bool

/-- The trace/response pair a handler produces. -/
abbrev HandlerResult := List Event × Option Response

/-! ## Authorization model (claim C3)

`AuthorizationService.UserHasPermission` is not under the supplied source
(only its caller `AuthorizationController.CheckUserPermission` is). -/

/-- A role: a named set of permission ids. -/
structure Role where
  id : Nat
  permissions : List Nat
deriving DecidableEq, Repr

/-- A user type: a named set of role ids. -/
structure UserTypeRec where
  id : Nat
  roleIds : List Nat
deriving DecidableEq, Repr

/-- The reference data the authorization check reads: the permission
registry, the principal table (email to user-type id), the user types and
the roles. -/
structure AuthDb where
  registry : List Nat
  principals : List (String × Nat)
  userTypes : List UserTypeRec
  roles : List Role
deriving DecidableEq, Repr

/-- Resolve a principal to its user-type id; `none` when absent. -/
def lookupPrincipal (db : AuthDb) (email : String) : Option Nat :=
  (db.principals.find? (fun p => p.1 == email)).map (fun p => p.2)

/-- The roles of a user type (role ids that resolve in the role table). -/
def rolesOf (db : AuthDb) (utId : Nat) : List Role :=
  match db.userTypes.find? (fun ut => ut.id == utId) with
  | none => []
  | some ut => ut.roleIds.filterMap (fun rid => db.roles.find? (fun r => r.id == rid))

/-- The effective permission set of a user type: the union of the
permissions across all of its roles. -/
def effectivePermissions (db : AuthDb) (utId : Nat) : List Nat :=
  (rolesOf db utId).flatMap (fun r => r.permissions)

/-- Modelled from the spec: `AuthorizationService.UserHasPermission`
(the body behind `AuthorizationUtil.CheckPermission`), absent from the
supplied source.  Returns true iff the permission id is registered, the
principal resolves, and some role of the principal's user type grants the
permission; absent principal, zero roles, or an unregistered id deny
without throwing. -/
def checkPermission (db : AuthDb) (email : String) (pid : Nat) : Bool :=
  if !db.registry.contains pid then
    false
  else
    match lookupPrincipal db email with
    | none => false
    | some utId => (rolesOf db utId).any (fun r => r.permissions.contains pid)

/-- A registry-closed database: every permission granted by a role is a
registered permission. -/
def AuthDb.closed (db : AuthDb) : Prop :=
  ∀ r ∈ db.roles, ∀ p ∈ r.permissions, p ∈ db.registry

/-! ## Service outcome glue

The entity services are not under the supplied source; each handler below
takes the outcome of every service call it makes as a parameter, in the
exact Go shape the call site consumes (an entity pointer plus an error,
or an error-only result).  The constants below fix, from the spec, which
outcome a nonexistent id produces. -/

/-- Maps a `User` to the `GetUserDTO` the controller builds (the
construction `UserController` inlines at each success site). -/
def toGetUserDTO (u : User) : GetUserDTO :=
  ⟨u.id, u.email, u.password, u.userTypeID, u.userStateTypeID⟩

/-- Maps an `Item` to the `GetItemDTO` the controller builds, flattening
additional expenses to their ids. -/
def toGetItemDTO (i : Item) : GetItemDTO :=
  ⟨i.id, i.name, i.description, i.stock, i.sellingPrice, i.purchasePrice,
   i.itemState, i.itemTypeID, i.additionalExpenses.map (fun e => e.id)⟩

/-- Modelled from the spec: `UserService.GetUserByID` (absent from the
supplied source) signals a nonexistent id by returning a nil entity with
a nil error; the nil-entity branch of the controller is its labelled
not-found path, per section 4.3 of the spec (the service returns either
the entity or a not-found signal distinguishable from a generic
persistence failure). -/
def userNotFoundOutcome : Option User × Option String := (none, none)

/-- Modelled from the spec: `AdditionalExpenseService.GetAdditionalExpenseByID`
(absent from the supplied source) signals a nonexistent id the same way:
nil entity, nil error. -/
def expenseNotFoundOutcome : Option AdditionalExpense × Option String := (none, none)

/-- Modelled from the spec: `AppointmentService.GetAppointmentByID`
(absent from the supplied source) signals a nonexistent id by a non-nil
error (the controller maps any error of this call to its labelled
not-found response). -/
def appointmentNotFoundOutcome : Option Appointment × Option String :=
  (none, some "record not found")

/-- Error classification at the `UpdateUser` call site of
`UserService.GetUserByID`, which distinguishes a gorm record-not-found
error from any other error. -/
inductive UserGetErr where
  | recordNotFound
  | other (emsg : String)
deriving DecidableEq, Repr

/-! ## UserController (src/controllers/user_controller.go) -/

/-- Embeds `UserController.GetUserByID` (user_controller.go, lines 42-81):
log attempt, check permission, invoke the service, map nil error plus nil
entity to 404 and a non-nil error to 500. -/
def getUserByID (env : Env) (id : String) (svc : Option User × Option String) :
    HandlerResult :=
  let m1 := "Attempting to retrieve user with ID: " ++ id
  if env.logErr m1 then
    ([.registerLog m1 false], some ⟨500, .errObj "Error registering log"⟩)
  else
    let granted := env.perm PERMISSION_GET_USER_BY_ID
    let t2 : List Event :=
      [.registerLog m1 true, .checkPermission PERMISSION_GET_USER_BY_ID granted]
    if !granted then
      let m2 := "Access denied for GetUserByID"
      (t2 ++ [.registerLog m2 (!env.logErr m2)], some ⟨403, .errObj "Access denied"⟩)
    else
      let t3 := t2 ++ [.serviceCall "UserService.GetUserByID"]
      match svc with
      | (_, some e) =>
          let m := "Error retrieving user with ID " ++ id ++ ": " ++ e
          (t3 ++ [.registerLog m (!env.logErr m)],
           some ⟨500, .errObj "Error retrieving user"⟩)
      | (none, none) =>
          let m := "User with ID " ++ id ++ " not found"
          (t3 ++ [.registerLog m (!env.logErr m)],
           some ⟨404, .errObj "User not found"⟩)
      | (some u, none) =>
          let m := "Successfully retrieved user with ID: " ++ id
          (t3 ++ [.registerLog m (!env.logErr m)],
           some ⟨200, .userDTO (toGetUserDTO u)⟩)

/-- Embeds `UserController.GetAllUsers` (user_controller.go, lines
95-131).  Note the error branch of the service call responds 404, not
500. -/
def getAllUsers (env : Env) (svc : Except String (List User)) : HandlerResult :=
  let m1 := "Attempting to retrieve all users"
  if env.logErr m1 then
    ([.registerLog m1 false], some ⟨500, .errObj "Error registering log"⟩)
  else
    let granted := env.perm PERMISSION_GET_ALL_USERS
    let t2 : List Event :=
      [.registerLog m1 true, .checkPermission PERMISSION_GET_ALL_USERS granted]
    if !granted then
      let m2 := "Access denied for GetAllUsers"
      (t2 ++ [.registerLog m2 (!env.logErr m2)], some ⟨403, .errObj "Access denied"⟩)
    else
      let t3 := t2 ++ [.serviceCall "UserService.GetAllUsers"]
      match svc with
      | .error e =>
          let m := "Error retrieving all users: " ++ e
          (t3 ++ [.registerLog m (!env.logErr m)],
           some ⟨404, .errObj "Users not found"⟩)
      | .ok users =>
          let m := "Successfully retrieved all users"
          (t3 ++ [.registerLog m (!env.logErr m)],
           some ⟨200, .userDTOs (users.map toGetUserDTO)⟩)

/-- Embeds `UserController.SearchUsersByID` (user_controller.go, lines
147-196).  An empty result list responds 404 with a message-object body,
not an error-object body. -/
def searchUsersByID (env : Env) (query : String) (svc : Except String (List User)) :
    HandlerResult :=
  let m1 := "Attempting to search users by ID with query: " ++ query
  if env.logErr m1 then
    ([.registerLog m1 false], some ⟨500, .errObj "Error registering log"⟩)
  else
    let granted := env.perm PERMISSION_SEARCH_USER_BY_ID
    let t2 : List Event :=
      [.registerLog m1 true, .checkPermission PERMISSION_SEARCH_USER_BY_ID granted]
    if !granted then
      let m2 := "Access denied for SearchUsersByID"
      (t2 ++ [.registerLog m2 (!env.logErr m2)], some ⟨403, .errObj "Access denied"⟩)
    else if query == "" then
      let m2 := "Query parameter id is missing for SearchUsersByID"
      (t2 ++ [.registerLog m2 (!env.logErr m2)],
       some ⟨400, .errObj "Query parameter is required"⟩)
    else
      let t3 := t2 ++ [.serviceCall "UserService.SearchUsersByID"]
      match svc with
      | .error e =>
          let m := "Error searching users by ID " ++ query ++ ": " ++ e
          (t3 ++ [.registerLog m (!env.logErr m)],
           some ⟨404, .errObj "Users not found"⟩)
      | .ok [] =>
          let m := "No users found with ID containing: " ++ query
          (t3 ++ [.registerLog m (!env.logErr m)],
           some ⟨404, .msgObj "No users found"⟩)
      | .ok users =>
          let m := "Successfully retrieved users with query: " ++ query
          (t3 ++ [.registerLog m (!env.logErr m)],
           some ⟨200, .userDTOs (users.map toGetUserDTO)⟩)

/-- Embeds `UserController.SearchUsersByEmail` (user_controller.go, lines
212-261); same shape as `searchUsersByID`. -/
def searchUsersByEmail (env : Env) (query : String)
    (svc : Except String (List User)) : HandlerResult :=
  let m1 := "Attempting to search users by email with query: " ++ query
  if env.logErr m1 then
    ([.registerLog m1 false], some ⟨500, .errObj "Error registering log"⟩)
  else
    let granted := env.perm PERMISSION_SEARCH_USERS_BY_EMAIL
    let t2 : List Event :=
      [.registerLog m1 true, .checkPermission PERMISSION_SEARCH_USERS_BY_EMAIL granted]
    if !granted then
      let m2 := "Access denied for SearchUsersByEmail"
      (t2 ++ [.registerLog m2 (!env.logErr m2)], some ⟨403, .errObj "Access denied"⟩)
    else if query == "" then
      let m2 := "Query parameter email is missing for SearchUsersByEmail"
      (t2 ++ [.registerLog m2 (!env.logErr m2)],
       some ⟨400, .errObj "Query parameter is required"⟩)
    else
      let t3 := t2 ++ [.serviceCall "UserService.SearchUsersByEmail"]
      match svc with
      | .error e =>
          let m := "Error searching users by email " ++ query ++ ": " ++ e
          (t3 ++ [.registerLog m (!env.logErr m)],
           some ⟨404, .errObj "Users not found"⟩)
      | .ok [] =>
          let m := "No users found with email containing: " ++ query
          (t3 ++ [.registerLog m (!env.logErr m)],
           some ⟨404, .msgObj "No users found"⟩)
      | .ok users =>
          let m := "Successfully retrieved users with email query: " ++ query
          (t3 ++ [.registerLog m (!env.logErr m)],
           some ⟨200, .userDTOs (users.map toGetUserDTO)⟩)

/-- Embeds `UserController.UpdateUserState` (user_controller.go, lines
282-327).  `bind` is the outcome of binding the request body to the
single-field state struct; `svc` is the outcome of
`UserService.UpdateUserState`. -/
def updateUserState (env : Env) (id : String) (bind : Except String Int)
    (svc : Except String User) : HandlerResult :=
  let m1 := "Attempting to update user state for ID: " ++ id
  if env.logErr m1 then
    ([.registerLog m1 false], some ⟨500, .errObj "Error registering log"⟩)
  else
    let granted := env.perm PERMISSION_UPDATE_USER_STATE
    let t2 : List Event :=
      [.registerLog m1 true, .checkPermission PERMISSION_UPDATE_USER_STATE granted]
    if !granted then
      let m2 := "Access denied for UpdateUserState"
      (t2 ++ [.registerLog m2 (!env.logErr m2)], some ⟨403, .errObj "Access denied"⟩)
    else
      match bind with
      | .error e =>
          let m2 := "Invalid request body for UpdateUserState: " ++ e
          (t2 ++ [.registerLog m2 (!env.logErr m2)], some ⟨400, .errObj e⟩)
      | .ok _ =>
          let t3 := t2 ++ [.serviceCall "UserService.UpdateUserState"]
          match svc with
          | .error _ =>
              let m := "User not found with ID " ++ id ++ " while updating state"
              (t3 ++ [.registerLog m (!env.logErr m)],
               some ⟨404, .errObj "User not found"⟩)
          | .ok u =>
              let m := "Successfully updated user state for ID: " ++ id
              (t3 ++ [.registerLog m (!env.logErr m)],
               some ⟨200, .userDTO (toGetUserDTO u)⟩)

/-- Embeds `UserController.UpdateUser` (user_controller.go, lines
344-401).  The get call site distinguishes a record-not-found error (404)
from other errors (500); on success the controller overwrites the entity
fields from the DTO, invokes the update, and echoes the updated fields. -/
def updateUser (env : Env) (id : String) (bind : Except String UpdateUserDTO)
    (getSvc : Except UserGetErr User) (updErr : Option String) : HandlerResult :=
  let m1 := "Attempting to update user with ID: " ++ id
  if env.logErr m1 then
    ([.registerLog m1 false], some ⟨500, .errObj "Error registering log"⟩)
  else
    let granted := env.perm PERMISSION_UPDATE_USER
    let t2 : List Event :=
      [.registerLog m1 true, .checkPermission PERMISSION_UPDATE_USER granted]
    if !granted then
      let m2 := "Access denied for UpdateUser"
      (t2 ++ [.registerLog m2 (!env.logErr m2)], some ⟨403, .errObj "Access denied"⟩)
    else
      match bind with
      | .error e =>
          let m2 := "Invalid request body for UpdateUser: " ++ e
          (t2 ++ [.registerLog m2 (!env.logErr m2)], some ⟨400, .errObj e⟩)
      | .ok dto =>
          let t3 := t2 ++ [.serviceCall "UserService.GetUserByID"]
          match getSvc with
          | .error .recordNotFound =>
              let m := "User not found with ID: " ++ id
              (t3 ++ [.registerLog m (!env.logErr m)],
               some ⟨404, .errObj "User not found"⟩)
          | .error (.other _) =>
              let m := "Error retrieving user with ID: " ++ id
              (t3 ++ [.registerLog m (!env.logErr m)],
               some ⟨500, .errObj "Internal server error"⟩)
          | .ok u =>
              let u2 : User :=
                { u with email := dto.email, password := dto.password,
                         userTypeID := dto.userTypeID,
                         userStateTypeID := dto.userStateID }
              let t4 := t3 ++ [.serviceCall "UserService.UpdateUser"]
              match updErr with
              | some _ =>
                  let m := "Failed to update user with ID: " ++ id
                  (t4 ++ [.registerLog m (!env.logErr m)],
                   some ⟨500, .errObj "Internal server error"⟩)
              | none =>
                  let m := "Successfully updated user with ID: " ++ id
                  (t4 ++ [.registerLog m (!env.logErr m)],
                   some ⟨200, .userDTO (toGetUserDTO u2)⟩)

/-- The id `UserService.CreateUser` assigns to a newly inserted row
(modelled from the spec: Create returns the entity with a generated id). -/
def nextUserId (db : List User) : Int :=
  Int.ofNat db.length + 1

/-- Embeds `UserController.CreateUser` (user_controller.go, lines
417-469) over an explicit persisted state: `db` is the user table,
threaded through so that the frame effect of each exit path is visible.
The duplicate check is the controller's own pre-check via
`UserService.GetUserByEmail` (modelled from the spec as an email lookup
in the table); `createErr` is the outcome of `UserService.CreateUser`. -/
def createUser (env : Env) (bind : Except String CreateUserDTO)
    (db : List User) (createErr : Option String) : HandlerResult × List User :=
  let m1 := "Attempting to create new user"
  if env.logErr m1 then
    (([.registerLog m1 false], some ⟨500, .errObj "Error registering log"⟩), db)
  else
    let granted := env.perm PERMISSION_CREATE_USER
    let t2 : List Event :=
      [.registerLog m1 true, .checkPermission PERMISSION_CREATE_USER granted]
    if !granted then
      let m2 := "Access denied for CreateUser"
      ((t2 ++ [.registerLog m2 (!env.logErr m2)],
        some ⟨403, .errObj "Access denied"⟩), db)
    else
      match bind with
      | .error e =>
          let m2 := "Invalid request body for CreateUser: " ++ e
          ((t2 ++ [.registerLog m2 (!env.logErr m2)], some ⟨400, .errObj e⟩), db)
      | .ok dto =>
          let t3 := t2 ++ [.serviceCall "UserService.GetUserByEmail"]
          match db.find? (fun u => u.email == dto.email) with
          | some _ =>
              let m := "Email already in use: " ++ dto.email
              ((t3 ++ [.registerLog m (!env.logErr m)],
                some ⟨409, .errObj "Email already in use"⟩), db)
          | none =>
              let t4 := t3 ++ [.serviceCall "UserService.CreateUser"]
              match createErr with
              | some e =>
                  let m := "Failed to create user: " ++ e
                  ((t4 ++ [.registerLog m (!env.logErr m)],
                    some ⟨500, .errObj "Failed to create user"⟩), db)
              | none =>
                  let created : User :=
                    ⟨nextUserId db, dto.email, dto.password,
                     dto.userTypeID, dto.userStateID⟩
                  let m := "Successfully created user with ID: " ++
                    toString created.id
                  ((t4 ++ [.registerLog m (!env.logErr m)],
                    some ⟨201, .userDTO (toGetUserDTO created)⟩), db ++ [created])

/-! ## AppointmentController (src/unnamed/part_000) -/

/-- Embeds `AppointmentController.GetAppointmentByID` (part_000, lines
174-202).  On denial the handler logs and returns without writing any
response (`none`); any service error maps to 404. -/
def getAppointmentByID (env : Env) (idParam : String) (idParse : Option Int)
    (svc : Option Appointment × Option String) : HandlerResult :=
  let m1 := "Attempting to get appointment by ID"
  if env.logErr m1 then
    ([.registerLog m1 false], some ⟨500, .errObj "Error registering log"⟩)
  else
    let granted := env.perm PERMISSION_GET_APPOINTMENT_BY_ID
    let t2 : List Event :=
      [.registerLog m1 true, .checkPermission PERMISSION_GET_APPOINTMENT_BY_ID granted]
    if !granted then
      let m2 := "Access denied for GetAppointmentByID"
      (t2 ++ [.registerLog m2 (!env.logErr m2)], none)
    else
      match idParse with
      | none =>
          let m2 := "Invalid appointment ID: " ++ idParam
          (t2 ++ [.registerLog m2 (!env.logErr m2)],
           some ⟨400, .errObj "Invalid appointment ID"⟩)
      | some id =>
          let t3 := t2 ++ [.serviceCall "AppointmentService.GetAppointmentByID"]
          match svc with
          | (_, some _) =>
              let m := "Appointment not found for ID: " ++ toString id
              (t3 ++ [.registerLog m (!env.logErr m)],
               some ⟨404, .errObj "Appointment not found"⟩)
          | (some a, none) =>
              let m := "Appointment retrieved successfully for ID: " ++ toString id
              (t3 ++ [.registerLog m (!env.logErr m)],
               some ⟨200, .appointmentObj a⟩)
          | (none, none) =>
              let m := "Appointment retrieved successfully for ID: " ++ toString id
              (t3 ++ [.registerLog m (!env.logErr m)], some ⟨200, .nullObj⟩)

/-- Embeds `AppointmentController.GetAllAppointments` (part_000, lines
215-249): a service error maps to 500; denial is silent. -/
def getAllAppointments (env : Env) (svc : Except String (List Appointment)) :
    HandlerResult :=
  let m1 := "Attempting to retrieve all appointments"
  if env.logErr m1 then
    ([.registerLog m1 false], some ⟨500, .errObj "Error registering log"⟩)
  else
    let granted := env.perm PERMISSION_GET_ALL_APPOINTMENTS
    let t2 : List Event :=
      [.registerLog m1 true, .checkPermission PERMISSION_GET_ALL_APPOINTMENTS granted]
    if !granted then
      let m2 := "Access denied for GetAllAppointments"
      (t2 ++ [.registerLog m2 (!env.logErr m2)], none)
    else
      let t3 := t2 ++ [.serviceCall "AppointmentService.GetAllAppointments"]
      match svc with
      | .error _ =>
          let m := "Error retrieving appointments"
          (t3 ++ [.registerLog m (!env.logErr m)],
           some ⟨500, .errObj "Error retrieving appointments"⟩)
      | .ok l =>
          let m := "All appointments retrieved successfully"
          (t3 ++ [.registerLog m (!env.logErr m)],
           some ⟨200, .appointmentList l⟩)

/-- Embeds `AppointmentController.SearchAppointmentsByID` (part_000,
lines 251-282): denial is silent; an empty result responds 404 with a
message-object body. -/
def searchAppointmentsByID (env : Env) (_query : String)
    (svc : Except String (List Appointment)) : HandlerResult :=
  let m1 := "Attempting to search appointments by ID"
  if env.logErr m1 then
    ([.registerLog m1 false], some ⟨500, .errObj "Error registering log"⟩)
  else
    let granted := env.perm PERMISSION_SEARCH_APPOINTMENTS_BY_ID
    let t2 : List Event :=
      [.registerLog m1 true,
       .checkPermission PERMISSION_SEARCH_APPOINTMENTS_BY_ID granted]
    if !granted then
      let m2 := "Access denied for SearchAppointmentsByID"
      (t2 ++ [.registerLog m2 (!env.logErr m2)], none)
    else
      let t3 := t2 ++ [.serviceCall "AppointmentService.SearchAppointmentsByID"]
      match svc with
      | .error _ =>
          let m := "Error retrieving appointments"
          (t3 ++ [.registerLog m (!env.logErr m)],
           some ⟨500, .errObj "Error retrieving appointments"⟩)
      | .ok [] =>
          let m := "No appointments found for given ID"
          (t3 ++ [.registerLog m (!env.logErr m)],
           some ⟨404, .msgObj "No appointments found"⟩)
      | .ok l =>
          let m := "Appointments found by ID successfully"
          (t3 ++ [.registerLog m (!env.logErr m)],
           some ⟨200, .appointmentList l⟩)

/-! ## RoleController (src/controllers/role_controller.go)

This controller has no audit-log utility at all; its denial path writes
nothing and logs nothing. -/

/-- Embeds `RoleController.GetRoleByID` (role_controller.go, lines
23-62).  On denial the handler returns immediately: no log entry, no
response. -/
def getRoleByID (env : Env) (idParse : Option Nat)
    (getSvc : Except String RoleRec) (permsSvc : Except String (List Nat)) :
    HandlerResult :=
  let granted := env.perm PERMISSION_GET_ROLE_BY_ID
  let t1 : List Event := [.checkPermission PERMISSION_GET_ROLE_BY_ID granted]
  if !granted then
    (t1, none)
  else
    match idParse with
    | none => (t1, some ⟨400, .errObj "Invalid role ID"⟩)
    | some _ =>
        let t2 := t1 ++ [.serviceCall "RoleService.GetRoleByID"]
        match getSvc with
        | .error _ => (t2, some ⟨404, .errObj "Role not found"⟩)
        | .ok role =>
            let t3 := t2 ++ [.serviceCall "RoleService.GetRolePermissions"]
            match permsSvc with
            | .error _ =>
                (t3, some ⟨500, .errObj "Error retrieving role permissions"⟩)
            | .ok permissionIDs =>
                (t3, some ⟨200, .roleDTOObj
                  ⟨role.id, role.name, role.description,
                   permissionIDs.map (fun p => toString p)⟩⟩)

/-! ## UserStateTypeController (src/unnamed/part_005)

This controller checks the permission before writing the attempt log. -/

/-- Embeds `UserStateTypeController.GetUserStateTypeByID` (part_005,
lines 35-64): the permission check runs first; only then is the attempt
logged, and a log failure responds 500 after the authorization already
executed.  Denial is silent. -/
def getUserStateTypeByID (env : Env) (id : String)
    (svc : Except String UserStateType) : HandlerResult :=
  let granted := env.perm PERMISSION_GET_USER_STATE_TYPE_BY_ID
  let t1 : List Event :=
    [.checkPermission PERMISSION_GET_USER_STATE_TYPE_BY_ID granted]
  if !granted then
    let m2 := "Access denied for GetUserStateTypeByID"
    (t1 ++ [.registerLog m2 (!env.logErr m2)], none)
  else
    let m1 := "Attempting to retrieve user state type with ID: " ++ id
    if env.logErr m1 then
      (t1 ++ [.registerLog m1 false], some ⟨500, .errObj "Error registering log"⟩)
    else
      let t2 := t1 ++ [.registerLog m1 true,
                       .serviceCall "UserStateTypeService.GetUserStateTypeByID"]
      match svc with
      | .error _ => (t2, some ⟨404, .errObj "User State Type not found"⟩)
      | .ok u =>
          let m := "Successfully retrieved user state type with ID: " ++ id
          (t2 ++ [.registerLog m (!env.logErr m)],
           some ⟨200, .userStateTypeObj u⟩)

/-! ## BillingController (src/controllers/billing_controller.go)

This controller has no audit-log utility at all. -/

/-- Embeds `BillingController.CalculateSubtotal` (billing_controller.go,
lines 40-60): no audit logging anywhere; denial is silent; a service
error responds 404 with the raw error text. -/
def calculateSubtotal (env : Env) (bind : Except String (List BillingItemDTO))
    (svc : Except String Int) : HandlerResult :=
  let granted := env.perm PERMISSION_CALCULATE_SUBTOTAL
  let t1 : List Event := [.checkPermission PERMISSION_CALCULATE_SUBTOTAL granted]
  if !granted then
    (t1, none)
  else
    match bind with
    | .error _ => (t1, some ⟨400, .errObj "Invalid request data"⟩)
    | .ok _ =>
        let t2 := t1 ++ [.serviceCall "BillingService.CalculateSubtotal"]
        match svc with
        | .error e => (t2, some ⟨404, .errObj e⟩)
        | .ok v => (t2, some ⟨200, .subtotalObj v⟩)

/-! ## EmployeeController (src/unnamed/part_001) -/

/-- The id `EmployeeService.CreateEmployee` assigns to a newly inserted
row (modelled from the spec: Create returns the entity with a generated
id). -/
def nextEmployeeId (db : List Employee) : Int :=
  Int.ofNat db.length + 1

/-- Embeds `EmployeeController.CreateEmployee` (part_001, lines 267-332)
over an explicit employee table.  The duplicate-PersonalID pre-check runs
before the UserID/IdentifierTypeID validity check, so a duplicate with
invalid ids responds 409, not 400. -/
def createEmployee (env : Env) (bind : Except String CreateEmployeeDTO)
    (db : List Employee) (createErr : Option String) :
    HandlerResult × List Employee :=
  let m1 := "Attempting to create an employee"
  if env.logErr m1 then
    (([.registerLog m1 false], some ⟨500, .errObj "Error registering log"⟩), db)
  else
    let granted := env.perm PERMISSION_CREATE_EMPLOYEE
    let t2 : List Event :=
      [.registerLog m1 true, .checkPermission PERMISSION_CREATE_EMPLOYEE granted]
    if !granted then
      let m2 := "Permission denied for CreateEmployee"
      ((t2 ++ [.registerLog m2 (!env.logErr m2)],
        some ⟨403, .errObj "Permission denied"⟩), db)
    else
      match bind with
      | .error e =>
          let m2 := "Invalid JSON format: " ++ e
          ((t2 ++ [.registerLog m2 (!env.logErr m2)],
            some ⟨400, .errDetails "Invalid JSON format" e⟩), db)
      | .ok dto =>
          let t3 := t2 ++ [.serviceCall "EmployeeService.GetEmployeeByID"]
          match db.find? (fun emp => emp.personalID == dto.personalID) with
          | some _ =>
              let m := "Attempt to create duplicate employee with PersonalID: " ++
                dto.personalID
              ((t3 ++ [.registerLog m (!env.logErr m)],
                some ⟨409, .errObj "An employee with this Personal ID already exists"⟩),
               db)
          | none =>
              if dto.userID ≤ 0 ∨ dto.identifierTypeID ≤ 0 then
                let m := "Invalid UserID or IdentifierTypeID: UserID=" ++
                  toString dto.userID ++ ", IdentifierTypeID=" ++
                  toString dto.identifierTypeID
                ((t3 ++ [.registerLog m (!env.logErr m)],
                  some ⟨400, .errObj "Invalid User ID or Identifier Type ID"⟩), db)
              else
                let t4 := t3 ++ [.serviceCall "EmployeeService.CreateEmployee"]
                match createErr with
                | some e =>
                    let m := "Error creating employee: " ++ e
                    ((t4 ++ [.registerLog m (!env.logErr m)],
                      some ⟨500, .errDetails "Error creating employee" e⟩), db)
                | none =>
                    let created : Employee :=
                      ⟨nextEmployeeId db, dto.names, dto.lastNames, dto.personalID,
                       dto.address, dto.phoneNumbers, dto.userID,
                       dto.identifierTypeID⟩
                    let m := "Successfully created employee with PersonalID: " ++
                      created.personalID
                    ((t4 ++ [.registerLog m (!env.logErr m)],
                      some ⟨201, .employeeDTO
                        ⟨created.id, created.names, created.lastNames,
                         created.personalID, created.address, created.phoneNumbers,
                         created.userID, created.identifierTypeID⟩⟩),
                     db ++ [created])

/-! ## AdditionalExpenseController (src/unnamed/part_002) -/

/-- Embeds `AdditionalExpenseController.GetAdditionalExpenseByID`
(part_002, lines 39-70): denial is silent; a non-nil service error maps
to 500 and a nil entity with nil error to 404. -/
def getAdditionalExpenseByID (env : Env) (idParam : String)
    (svc : Option AdditionalExpense × Option String) : HandlerResult :=
  let m1 := "Attempting to retrieve AdditionalExpense with ID: " ++ idParam
  if env.logErr m1 then
    ([.registerLog m1 false], some ⟨500, .errObj "Error registering log"⟩)
  else
    let granted := env.perm PERMISSION_GET_ADDITIONAL_EXPENSE_BY_ID
    let t2 : List Event :=
      [.registerLog m1 true,
       .checkPermission PERMISSION_GET_ADDITIONAL_EXPENSE_BY_ID granted]
    if !granted then
      let m2 := "Access denied for GetAdditionalExpenseByID"
      (t2 ++ [.registerLog m2 (!env.logErr m2)], none)
    else
      let t3 := t2 ++
        [.serviceCall "AdditionalExpenseService.GetAdditionalExpenseByID"]
      match svc with
      | (_, some e) =>
          let m := "Error retrieving AdditionalExpense with ID " ++ idParam ++
            ": " ++ e
          (t3 ++ [.registerLog m (!env.logErr m)],
           some ⟨500, .errObj "Error retrieving Additional Expense"⟩)
      | (none, none) =>
          let m := "AdditionalExpense with ID " ++ idParam ++ " not found"
          (t3 ++ [.registerLog m (!env.logErr m)],
           some ⟨404, .errObj "Additional Expense not found"⟩)
      | (some x, none) =>
          let m := "Successfully retrieved AdditionalExpense with ID: " ++ idParam
          (t3 ++ [.registerLog m (!env.logErr m)],
           some ⟨200, .expenseObj x⟩)

/-! ## ItemController (src/unnamed/part_004)

`GetItemByID` and `GetAllItems` perform no permission check at all: the
environment's permission oracle is never consulted. -/

/-- Embeds `ItemController.GetItemByID` (part_004, lines 89-124): log
attempt, invoke the service (no authorization step), map any error to
404. -/
def getItemByID (env : Env) (id : String) (svc : Except String Item) :
    HandlerResult :=
  let m1 := "Fetching item by ID: " ++ id
  if env.logErr m1 then
    ([.registerLog m1 false], some ⟨500, .errObj "Error registering log"⟩)
  else
    let t2 : List Event :=
      [.registerLog m1 true, .serviceCall "ItemService.GetItemByID"]
    match svc with
    | .error _ =>
        let m := "Item not found with ID: " ++ id
        (t2 ++ [.registerLog m (!env.logErr m)],
         some ⟨404, .errObj "Item not found"⟩)
    | .ok item =>
        let m := "Successfully fetched item with ID: " ++ id
        (t2 ++ [.registerLog m (!env.logErr m)],
         some ⟨200, .itemDTO (toGetItemDTO item)⟩)

/-- Embeds `ItemController.GetAllItems` (part_004, lines 135-177): log
attempt, invoke the service (no authorization step), map any error to
500. -/
def getAllItems (env : Env) (svc : Except String (List Item)) : HandlerResult :=
  let m1 := "Fetching all items"
  if env.logErr m1 then
    ([.registerLog m1 false], some ⟨500, .errObj "Error registering log"⟩)
  else
    let t2 : List Event :=
      [.registerLog m1 true, .serviceCall "ItemService.GetAllItems"]
    match svc with
    | .error _ =>
        let m := "Error retrieving items"
        (t2 ++ [.registerLog m (!env.logErr m)],
         some ⟨500, .errObj "Error retrieving items"⟩)
    | .ok items =>
        let m := "Successfully retrieved all items"
        (t2 ++ [.registerLog m (!env.logErr m)],
         some ⟨200, .itemDTOs (items.map toGetItemDTO)⟩)

/-! ## Shared test environments and response predicates -/

/-- An environment where every log write succeeds and every permission is
granted. -/
def okEnv : Env := ⟨fun _ => false, fun _ => true⟩

/-- Every log write succeeds; every permission is denied. -/
def denyEnv : Env := ⟨fun _ => false, fun _ => false⟩

/-- Every log write fails; every permission is granted. -/
def logFailEnv : Env := ⟨fun _ => true, fun _ => true⟩

/-- Whether a body is exactly the single-field error-object shape. -/
def Body.isErrObj : Body → Bool
  | .errObj _ => true
  | _ => false

/-- Whether a body is one of the failure shapes the controllers write: an
error object, an error object with a details field, or a message
object. -/
def Body.isFailureShape : Body → Bool
  | .errObj _ => true
  | .errDetails _ _ => true
  | .msgObj _ => true
  | _ => false

/-- The status codes the spec lists as the complete set in use. -/
def allowedStatus (s : Nat) : Bool :=
  [200, 201, 400, 401, 403, 404, 409, 500].contains s

/-- A response is well-shaped when its status is in the allowed set and,
for failure statuses, its body is one of the failure shapes. -/
def Response.wellShaped (r : Response) : Bool :=
  allowedStatus r.status && (decide (r.status < 400) || r.body.isFailureShape)

/-- The response a handler wrote, if any, is well-shaped. -/
def wellShapedResult (h : HandlerResult) : Bool :=
  match h.2 with
  | none => true
  | some r => r.wellShaped

/-! ## Claim C3: the authorization check -/

/-- Any role produced by `rolesOf` comes from the role table. -/
theorem mem_rolesOf (db : AuthDb) (utId : Nat) (r : Role)
    (h : r ∈ rolesOf db utId) : r ∈ db.roles := by
  unfold rolesOf at h
  cases hf : db.userTypes.find? (fun ut => ut.id == utId) with
  | none => rw [hf] at h; simp at h
  | some ut =>
      rw [hf] at h
      rw [List.mem_filterMap] at h
      obtain ⟨rid, _, hfind⟩ := h
      exact List.mem_of_find?_eq_some hfind

/-- Membership in the effective permission set is membership in the
permissions of some role of the user type. -/
theorem mem_effectivePermissions (db : AuthDb) (utId pid : Nat) :
    pid ∈ effectivePermissions db utId ↔
      ∃ r ∈ rolesOf db utId, pid ∈ r.permissions := by
  unfold effectivePermissions
  simp [List.mem_flatMap]

/-- If the permission id grantable through some role is always in the
registry, a true verdict forces registry membership. -/
theorem checkPermission_registry_gate (db : AuthDb) (email : String)
    (pid : Nat) (hreg : db.registry.contains pid = false) :
    checkPermission db email pid = false := by
  unfold checkPermission
  rw [hreg]
  simp

/-- C3: `CheckPermission` returns true iff the principal resolves and its
effective permission set (the union of permissions across all roles of
its user type) contains the permission id; an absent principal
(`email2`), a principal whose user type has zero roles (`email3`), and a
permission id absent from the registry (`pid2`) all deny.  The
registry-closure hypothesis states that roles grant only registered
permissions. -/
theorem checkPermission_correct (db : AuthDb) (email email2 email3 : String)
    (pid pid2 utId3 : Nat)
    (hclosed : db.closed)
    (h2 : lookupPrincipal db email2 = none)
    (h3 : lookupPrincipal db email3 = some utId3)
    (h3r : rolesOf db utId3 = [])
    (h4 : pid2 ∉ db.registry) :
    (checkPermission db email pid = true ↔
      ∃ utId, lookupPrincipal db email = some utId ∧
        pid ∈ effectivePermissions db utId) ∧
    checkPermission db email2 pid = false ∧
    checkPermission db email3 pid = false ∧
    checkPermission db email pid2 = false := by
  refine ⟨?_, ?_, ?_, ?_⟩
  · constructor
    · intro h
      unfold checkPermission at h
      by_cases hreg : db.registry.contains pid
      · rw [hreg] at h
        simp only [Bool.not_true, Bool.false_eq_true, if_false] at h
        cases hlk : lookupPrincipal db email with
        | none => rw [hlk] at h; exact absurd h (by simp)
        | some utId =>
            rw [hlk] at h
            refine ⟨utId, rfl, ?_⟩
            rw [mem_effectivePermissions]
            rw [List.any_eq_true] at h
            obtain ⟨r, hr, hc⟩ := h
            exact ⟨r, hr, by simpa using hc⟩
      · rw [Bool.not_eq_true] at hreg
        rw [hreg] at h
        simp at h
    · rintro ⟨utId, hlk, hmem⟩
      have hreg : db.registry.contains pid := by
        rw [mem_effectivePermissions] at hmem
        obtain ⟨r, hr, hp⟩ := hmem
        simpa using hclosed r (mem_rolesOf db utId r hr) pid hp
      unfold checkPermission
      rw [hreg]
      simp only [Bool.not_true, Bool.false_eq_true, if_false]
      rw [hlk]
      rw [List.any_eq_true]
      rw [mem_effectivePermissions] at hmem
      obtain ⟨r, hr, hp⟩ := hmem
      exact ⟨r, hr, by simpa using hp⟩
  · unfold checkPermission
    cases hreg : db.registry.contains pid with
    | false => simp
    | true => simp only [Bool.not_true, Bool.false_eq_true, if_false]; rw [h2]
  · unfold checkPermission
    cases hreg : db.registry.contains pid with
    | false => simp
    | true =>
        simp only [Bool.not_true, Bool.false_eq_true, if_false]
        rw [h3]
        simp [h3r]
  · exact checkPermission_registry_gate db email pid2 (by simpa using h4)

/-- A concrete registry-closed database: principal "ana" has user type
10 whose single role 5 grants permission 1; principal "bob" has user
type 11 with zero roles; "ghost" is absent; 99 is unregistered. -/
def dbW : AuthDb :=
  ⟨[1, 2], [("ana@totes.co", 10), ("bob@totes.co", 11)],
   [⟨10, [5]⟩, ⟨11, []⟩], [⟨5, [1]⟩]⟩

/-- Witness for `checkPermission_correct` at the concrete database. -/
theorem checkPermission_correct_witness :
    (checkPermission dbW "ana@totes.co" 1 = true ↔
      ∃ utId, lookupPrincipal dbW "ana@totes.co" = some utId ∧
        1 ∈ effectivePermissions dbW utId) ∧
    checkPermission dbW "ghost@totes.co" 1 = false ∧
    checkPermission dbW "bob@totes.co" 1 = false ∧
    checkPermission dbW "ana@totes.co" 99 = false :=
  checkPermission_correct dbW "ana@totes.co" "ghost@totes.co" "bob@totes.co"
    1 99 11
    (by show ∀ r ∈ dbW.roles, ∀ p ∈ r.permissions, p ∈ dbW.registry; decide)
    (by decide) (by decide) (by decide) (by decide)

/-! ## Claim C1: denial must be logged and answered with 403

The claim holds for some controllers (`UserController` writes an explicit
403 body on every denial) but the code contradicts it — and its own
documented failure responses — in `RoleController.GetRoleByID`, which on
denial returns without logging or writing anything, and in
`AppointmentController.GetAppointmentByID`, which logs the denial but
writes no response, so the client receives an implicit empty 200. -/

/-- C1: evaluating the code at the failing inputs.  With the permission
check denying, `RoleController.GetRoleByID` produces no log entry and no
response, and `AppointmentController.GetAppointmentByID` logs the denial
but also writes no response; neither writes the 403 the claim requires.
`UserController.CreateUser` on the same denial does write 403, showing
the inconsistency. -/
theorem denial_without_response :
    getRoleByID denyEnv (some 1) (.ok ⟨1, "Admin", "root role"⟩) (.ok []) =
      ([.checkPermission PERMISSION_GET_ROLE_BY_ID false], none) ∧
    getAppointmentByID denyEnv "3" (some 3) (none, some "record not found") =
      ([.registerLog "Attempting to get appointment by ID" true,
        .checkPermission PERMISSION_GET_APPOINTMENT_BY_ID false,
        .registerLog "Access denied for GetAppointmentByID" true], none) ∧
    ((createUser denyEnv (.ok ⟨"e@x.co", "pw", 1, 1⟩) [] none).1).2 =
      some ⟨403, .errObj "Access denied"⟩ := by
  refine ⟨rfl, rfl, rfl⟩

/-! ## Claim C2: audit attempt before authorization and invocation

The standard pipeline (UserController, AppointmentController,
EmployeeController, ItemController, ...) does log the attempt first and
lets a log failure short-circuit everything.  But
`UserStateTypeController.GetUserStateTypeByID` runs the permission check
before any log write, and `BillingController` and the
`role_controller.go` version of `RoleController` never write audit logs
at all, so the claim fails as a statement about every controller
operation. -/

/-- C2 counterexample: in `UserStateTypeController.GetUserStateTypeByID`
with a failing audit-log writer the authorization check still executes —
the trace starts with the permission check, before any log write — and
only afterwards does the handler respond 500 for the log failure.  The
claim requires that no authorization check run when `RegisterLog`
fails. -/
theorem authorize_runs_before_log :
    getUserStateTypeByID logFailEnv "7" (.ok ⟨7, "Active"⟩) =
      ([.checkPermission PERMISSION_GET_USER_STATE_TYPE_BY_ID true,
        .registerLog "Attempting to retrieve user state type with ID: 7" false],
       some ⟨500, .errObj "Error registering log"⟩) ∧
    Event.isPermCheck (.checkPermission PERMISSION_GET_USER_STATE_TYPE_BY_ID true) =
      true := by
  refine ⟨rfl, rfl⟩

/-- C2 amended: the attempt-before-authorization discipline is a
per-operation property, not a codebase-wide one.  Positively, in the
three embedded operations that log first — `UserController.GetUserByID`,
`UserController.CreateUser`, `AppointmentController.GetAppointmentByID` —
the attempt log is the first trace event, and a failing attempt log
short-circuits the request with 500 before any permission check or
service call (and, for Create, without touching the table).  Negatively,
`UserStateTypeController.GetUserStateTypeByID` always begins with the
permission check (its first trace event is the check, for every
environment), `BillingController.CalculateSubtotal` never calls
`RegisterLog` yet still invokes its service once the permission is
granted, and `RoleController.GetRoleByID` (role_controller.go) never
calls `RegisterLog` on any path, so those operations can authorize or
execute without any recorded attempt. -/
theorem log_attempt_first_standard (envF envO : Env) (id : String)
    (svcU : Option User × Option String) (bind : Except String CreateUserDTO)
    (db : List User) (cerr : Option String) (idp : Option Int)
    (svcA : Option Appointment × Option String)
    (usvc : Except String UserStateType) (bsvcOf : Except String Int)
    (items : List BillingItemDTO) (v : Int) (idpN : Option Nat)
    (rsvc : Except String RoleRec) (psvc : Except String (List Nat))
    (hf1 : envF.logErr ("Attempting to retrieve user with ID: " ++ id) = true)
    (hf2 : envF.logErr "Attempting to create new user" = true)
    (hf3 : envF.logErr "Attempting to get appointment by ID" = true)
    (ho1 : envO.logErr ("Attempting to retrieve user with ID: " ++ id) = false)
    (ho2 : envO.logErr "Attempting to create new user" = false)
    (ho3 : envO.logErr "Attempting to get appointment by ID" = false)
    (hpb : envO.perm PERMISSION_CALCULATE_SUBTOTAL = true) :
    getUserByID envF id svcU =
      ([.registerLog ("Attempting to retrieve user with ID: " ++ id) false],
       some ⟨500, .errObj "Error registering log"⟩) ∧
    (getUserByID envO id svcU).1.head? =
      some (.registerLog ("Attempting to retrieve user with ID: " ++ id) true) ∧
    createUser envF bind db cerr =
      (([.registerLog "Attempting to create new user" false],
        some ⟨500, .errObj "Error registering log"⟩), db) ∧
    ((createUser envO bind db cerr).1).1.head? =
      some (.registerLog "Attempting to create new user" true) ∧
    getAppointmentByID envF id idp svcA =
      ([.registerLog "Attempting to get appointment by ID" false],
       some ⟨500, .errObj "Error registering log"⟩) ∧
    (getAppointmentByID envO id idp svcA).1.head? =
      some (.registerLog "Attempting to get appointment by ID" true) ∧
    (getUserStateTypeByID envO id usvc).1.head? =
      some (.checkPermission PERMISSION_GET_USER_STATE_TYPE_BY_ID
        (envO.perm PERMISSION_GET_USER_STATE_TYPE_BY_ID)) ∧
    ((calculateSubtotal envO (.ok items) bsvcOf).1.all
        (fun ev => !ev.isLogCall)) = true ∧
    calculateSubtotal envO (.ok items) (.ok v) =
      ([.checkPermission PERMISSION_CALCULATE_SUBTOTAL true,
        .serviceCall "BillingService.CalculateSubtotal"],
       some ⟨200, .subtotalObj v⟩) ∧
    ((getRoleByID envO idpN rsvc psvc).1.all (fun ev => !ev.isLogCall)) =
      true := by
  refine ⟨by simp [getUserByID, hf1], ?_, by simp [createUser, hf2], ?_,
    by simp [getAppointmentByID, hf3], ?_, ?_, ?_,
    by simp [calculateSubtotal, hpb], ?_⟩
  · rcases svcU with ⟨u, e⟩
    cases hg : envO.perm PERMISSION_GET_USER_BY_ID <;> cases u <;> cases e <;>
      simp [getUserByID, ho1, hg]
  · cases hg : envO.perm PERMISSION_CREATE_USER
    · simp [createUser, ho2, hg]
    · cases bind with
      | error e => simp [createUser, ho2, hg]
      | ok dto =>
          cases hfind : db.find? (fun u => u.email == dto.email) <;>
            cases cerr <;> simp [createUser, ho2, hg, hfind]
  · rcases svcA with ⟨a, e⟩
    cases hg : envO.perm PERMISSION_GET_APPOINTMENT_BY_ID <;> cases idp <;>
      cases a <;> cases e <;> simp [getAppointmentByID, ho3, hg]
  · cases hg : envO.perm PERMISSION_GET_USER_STATE_TYPE_BY_ID <;>
      cases h1 : envO.logErr
        ("Attempting to retrieve user state type with ID: " ++ id) <;>
      cases usvc <;> simp [getUserStateTypeByID, hg, h1]
  · cases hg : envO.perm PERMISSION_CALCULATE_SUBTOTAL <;> cases bsvcOf <;>
      simp [calculateSubtotal, hg, Event.isLogCall]
  · cases hg : envO.perm PERMISSION_GET_ROLE_BY_ID <;> cases idpN <;>
      cases rsvc <;> cases psvc <;>
      simp [getRoleByID, hg, Event.isLogCall]

/-- Witness for `log_attempt_first_standard`: under a failing-log
environment the three log-first operations short-circuit with 500; under
a healthy environment they log the attempt first, while the user-state
lookup begins with its permission check, the billing subtotal runs its
service with no log call anywhere in its trace, and the role lookup
performs no log call either. -/
theorem log_attempt_first_standard_witness :
    getUserByID logFailEnv "9" (none, none) =
      ([.registerLog ("Attempting to retrieve user with ID: " ++ "9") false],
       some ⟨500, .errObj "Error registering log"⟩) ∧
    (getUserByID okEnv "9" (none, none)).1.head? =
      some (.registerLog ("Attempting to retrieve user with ID: " ++ "9") true) ∧
    createUser logFailEnv (.ok ⟨"e@x.co", "pw", 1, 1⟩) [] none =
      (([.registerLog "Attempting to create new user" false],
        some ⟨500, .errObj "Error registering log"⟩), []) ∧
    ((createUser okEnv (.ok ⟨"e@x.co", "pw", 1, 1⟩) [] none).1).1.head? =
      some (.registerLog "Attempting to create new user" true) ∧
    getAppointmentByID logFailEnv "9" (some 9) (none, none) =
      ([.registerLog "Attempting to get appointment by ID" false],
       some ⟨500, .errObj "Error registering log"⟩) ∧
    (getAppointmentByID okEnv "9" (some 9) (none, none)).1.head? =
      some (.registerLog "Attempting to get appointment by ID" true) ∧
    (getUserStateTypeByID okEnv "9" (.ok ⟨9, "Active"⟩)).1.head? =
      some (.checkPermission PERMISSION_GET_USER_STATE_TYPE_BY_ID
        (okEnv.perm PERMISSION_GET_USER_STATE_TYPE_BY_ID)) ∧
    ((calculateSubtotal okEnv (.ok [⟨1, 2⟩]) (.error "down")).1.all
        (fun ev => !ev.isLogCall)) = true ∧
    calculateSubtotal okEnv (.ok [⟨1, 2⟩]) (.ok 42) =
      ([.checkPermission PERMISSION_CALCULATE_SUBTOTAL true,
        .serviceCall "BillingService.CalculateSubtotal"],
       some ⟨200, .subtotalObj 42⟩) ∧
    ((getRoleByID okEnv (some 1) (.ok ⟨1, "Admin", "root role"⟩)
        (.ok [])).1.all (fun ev => !ev.isLogCall)) = true :=
  log_attempt_first_standard logFailEnv okEnv "9" (none, none)
    (.ok ⟨"e@x.co", "pw", 1, 1⟩) [] none (some 9) (none, none)
    (.ok ⟨9, "Active"⟩) (.error "down") [⟨1, 2⟩] 42 (some 1)
    (.ok ⟨1, "Admin", "root role"⟩) (.ok []) rfl rfl rfl rfl rfl rfl rfl

/-! ## Claim C4: 409 for duplicates, 400 for missing/invalid fields

In `EmployeeController.CreateEmployee` the duplicate-PersonalID pre-check
runs before the UserID/IdentifierTypeID validity check, so a request that
both duplicates the natural key and carries invalid required fields is
rejected 409, not the 400 the claim assigns to invalid-field requests. -/

/-- An employee table holding one row with PersonalID "PID-1". -/
def empDb : List Employee :=
  [⟨1, "Ana", "Borges", "PID-1", "Street 1", "555", 2, 1⟩]

/-- A bound create body duplicating PersonalID "PID-1" and carrying an
invalid required field (UserID = 0). -/
def dupBadDto : CreateEmployeeDTO :=
  ⟨"Jon", "Kent", "PID-1", "Street 2", "556", 0, 1⟩

/-- C4 counterexample: a create request whose body has an invalid
required field (UserID = 0) is not rejected with 400 — because it also
duplicates an existing PersonalID, the code answers 409. -/
theorem createEmployee_duplicate_beats_validation :
    ((createEmployee okEnv (.ok dupBadDto) empDb none).1).2 =
      some ⟨409, .errObj "An employee with this Personal ID already exists"⟩ ∧
    (dupBadDto.userID ≤ 0 ∨ dupBadDto.identifierTypeID ≤ 0) := by
  exact ⟨rfl, Or.inl (by decide)⟩

/-- C4 amended: binding failures answer 400; a successfully bound body
that duplicates the natural key (Email for users via `db`/`dto`,
PersonalID for employees via `edb1`/`edto1`) answers 409 even when other
required fields are invalid, because the duplicate pre-check precedes
field validation; a successfully bound, non-duplicate employee body with
invalid required ids (`edb2`/`edto2`) answers 400.  The two failure
kinds remain distinguishable by status code. -/
theorem create_conflict_vs_validation (env : Env) (e : String) (u0 : User)
    (dto : CreateUserDTO) (db : List User) (cerr : Option String)
    (emp0 : Employee) (edto1 edto2 : CreateEmployeeDTO)
    (edb1 edb2 : List Employee) (ecerr : Option String)
    (hl : ∀ m, env.logErr m = false) (hp : ∀ p, env.perm p = true)
    (hdup : db.find? (fun u => u.email == dto.email) = some u0)
    (hedup : edb1.find? (fun emp => emp.personalID == edto1.personalID) = some emp0)
    (hnodup : edb2.find? (fun emp => emp.personalID == edto2.personalID) = none)
    (hbad : edto2.userID ≤ 0 ∨ edto2.identifierTypeID ≤ 0) :
    ((createUser env (.error e) db cerr).1).2.map Response.status = some 400 ∧
    ((createUser env (.ok dto) db cerr).1).2.map Response.status = some 409 ∧
    ((createEmployee env (.error e) edb1 ecerr).1).2.map Response.status =
      some 400 ∧
    ((createEmployee env (.ok edto1) edb1 ecerr).1).2.map Response.status =
      some 409 ∧
    ((createEmployee env (.ok edto2) edb2 ecerr).1).2.map Response.status =
      some 400 := by
  have hbad2 : (edto2.userID ≤ 0 ∨ edto2.identifierTypeID ≤ 0) = True := by
    simp [hbad]
  refine ⟨by simp [createUser, hl, hp], by simp [createUser, hl, hp, hdup],
    by simp [createEmployee, hl, hp], by simp [createEmployee, hl, hp, hedup],
    by simp [createEmployee, hl, hp, hnodup, hbad2]⟩

/-- A non-duplicate employee create body with an invalid UserID. -/
def freshBadDto : CreateEmployeeDTO :=
  ⟨"Jon", "Kent", "PID-9", "Street 2", "556", 0, 1⟩

/-- Witness for `create_conflict_vs_validation` at concrete inputs. -/
theorem create_conflict_vs_validation_witness :
    ((createUser okEnv (.error "EOF") [⟨1, "a@b.co", "pw", 1, 1⟩] none).1).2.map
      Response.status = some 400 ∧
    ((createUser okEnv (.ok ⟨"a@b.co", "pw2", 1, 1⟩)
      [⟨1, "a@b.co", "pw", 1, 1⟩] none).1).2.map Response.status = some 409 ∧
    ((createEmployee okEnv (.error "EOF") empDb none).1).2.map Response.status =
      some 400 ∧
    ((createEmployee okEnv (.ok dupBadDto) empDb none).1).2.map Response.status =
      some 409 ∧
    ((createEmployee okEnv (.ok freshBadDto) empDb none).1).2.map Response.status =
      some 400 :=
  create_conflict_vs_validation okEnv "EOF" ⟨1, "a@b.co", "pw", 1, 1⟩
    ⟨"a@b.co", "pw2", 1, 1⟩ [⟨1, "a@b.co", "pw", 1, 1⟩] none
    ⟨1, "Ana", "Borges", "PID-1", "Street 1", "555", 2, 1⟩ dupBadDto freshBadDto
    empDb empDb none (fun _ => rfl) (fun _ => rfl) (by decide) (by decide)
    (by decide) (Or.inl (by decide))

/-! ## Claim C5: GetByID on a nonexistent id yields 404, never 500 -/

/-- C5: with a healthy log writer and the permission granted, each
embedded GetByID handler maps the nonexistent-id service outcome
(`userNotFoundOutcome`, `appointmentNotFoundOutcome`,
`expenseNotFoundOutcome`, modelled from the spec because the service
sources are absent) to status 404 — in particular not 500. -/
theorem getByID_nonexistent_404 (env : Env) (id : String) (idp : Int)
    (hl : ∀ m, env.logErr m = false) (hp : ∀ p, env.perm p = true) :
    (getUserByID env id userNotFoundOutcome).2.map Response.status = some 404 ∧
    (getAppointmentByID env id (some idp) appointmentNotFoundOutcome).2.map
      Response.status = some 404 ∧
    (getAdditionalExpenseByID env id expenseNotFoundOutcome).2.map
      Response.status = some 404 := by
  refine ⟨by simp [getUserByID, userNotFoundOutcome, hl, hp],
    by simp [getAppointmentByID, appointmentNotFoundOutcome, hl, hp],
    by simp [getAdditionalExpenseByID, expenseNotFoundOutcome, hl, hp]⟩

/-- Witness for `getByID_nonexistent_404` at concrete inputs. -/
theorem getByID_nonexistent_404_witness :
    (getUserByID okEnv "77" userNotFoundOutcome).2.map Response.status =
      some 404 ∧
    (getAppointmentByID okEnv "77" (some 77) appointmentNotFoundOutcome).2.map
      Response.status = some 404 ∧
    (getAdditionalExpenseByID okEnv "77" expenseNotFoundOutcome).2.map
      Response.status = some 404 :=
  getByID_nonexistent_404 okEnv "77" 77 (fun _ => rfl) (fun _ => rfl)

/-! ## Claim C6: denied CreateUser writes 403 and inserts nothing -/

/-- C6: when the principal lacks `PERMISSION_CREATE_USER`, `CreateUser`
responds 403 with the access-denied body, the user table is returned
unchanged, and the trace contains no service call at all — in particular
`UserService.CreateUser` never runs. -/
theorem createUser_denied_no_insert (env : Env) (dto : CreateUserDTO)
    (db : List User) (cerr : Option String)
    (hlog : env.logErr "Attempting to create new user" = false)
    (hperm : env.perm PERMISSION_CREATE_USER = false) :
    ((createUser env (.ok dto) db cerr).1).2 =
      some ⟨403, .errObj "Access denied"⟩ ∧
    (createUser env (.ok dto) db cerr).2 = db ∧
    (((createUser env (.ok dto) db cerr).1).1.all
      (fun ev => !ev.isServiceCall)) = true := by
  refine ⟨by simp [createUser, hlog, hperm], by simp [createUser, hlog, hperm], ?_⟩
  simp [createUser, hlog, hperm, Event.isServiceCall]

/-- Witness for `createUser_denied_no_insert` at concrete inputs. -/
theorem createUser_denied_no_insert_witness :
    ((createUser denyEnv (.ok ⟨"new@x.co", "pw", 1, 1⟩)
        [⟨1, "a@b.co", "pw", 1, 1⟩] none).1).2 =
      some ⟨403, .errObj "Access denied"⟩ ∧
    (createUser denyEnv (.ok ⟨"new@x.co", "pw", 1, 1⟩)
        [⟨1, "a@b.co", "pw", 1, 1⟩] none).2 = [⟨1, "a@b.co", "pw", 1, 1⟩] ∧
    (((createUser denyEnv (.ok ⟨"new@x.co", "pw", 1, 1⟩)
        [⟨1, "a@b.co", "pw", 1, 1⟩] none).1).1.all
      (fun ev => !ev.isServiceCall)) = true :=
  createUser_denied_no_insert denyEnv ⟨"new@x.co", "pw", 1, 1⟩
    [⟨1, "a@b.co", "pw", 1, 1⟩] none rfl rfl

/-! ## Claim C7: unclassified service errors map to 500

`AppointmentController.GetAllAppointments` and `ItemController.GetAllItems`
do respond 500 on a service error, but `UserController.GetAllUsers` maps
any service error to 404 "Users not found", so the claim fails as stated
for every GetAll operation. -/

/-- C7 counterexample: `GetAllUsers` with a failing service responds
404, not the 500 the claim requires for unclassified service errors. -/
theorem getAllUsers_error_maps_to_404 :
    (getAllUsers okEnv (.error "connection refused")).2 =
      some ⟨404, .errObj "Users not found"⟩ := by
  exact rfl

/-- C7 amended: on a service error, `GetAllAppointments` and
`GetAllItems` respond 500, while the user-listing operations
(`GetAllUsers`, and its search variants by the same mapping) respond
404. -/
theorem getAll_error_mapping (env : Env) (e : String)
    (hl : ∀ m, env.logErr m = false) (hp : ∀ p, env.perm p = true) :
    (getAllAppointments env (.error e)).2.map Response.status = some 500 ∧
    (getAllItems env (.error e)).2.map Response.status = some 500 ∧
    (getAllUsers env (.error e)).2.map Response.status = some 404 := by
  refine ⟨by simp [getAllAppointments, hl, hp],
    by simp [getAllItems, hl],
    by simp [getAllUsers, hl, hp]⟩

/-- Witness for `getAll_error_mapping` at a concrete error. -/
theorem getAll_error_mapping_witness :
    (getAllAppointments okEnv (.error "boom")).2.map Response.status =
      some 500 ∧
    (getAllItems okEnv (.error "boom")).2.map Response.status = some 500 ∧
    (getAllUsers okEnv (.error "boom")).2.map Response.status = some 404 :=
  getAll_error_mapping okEnv "boom" (fun _ => rfl) (fun _ => rfl)

/-! ## Claim C8: failure bodies and the status-code set

The empty-search-result paths respond 404 with a body holding a single
"message" field, not the claimed single-"error"-field object, so the
body-shape half of the claim fails; the status-code half holds. -/

/-- C8 counterexample: `SearchAppointmentsByID` over an empty result
writes a 404 whose body is a message object, which is not the
error-object shape the claim requires of every failure response. -/
theorem search_empty_message_body :
    (searchAppointmentsByID okEnv "9" (.ok [])).2 =
      some ⟨404, .msgObj "No appointments found"⟩ ∧
    (Body.msgObj "No appointments found").isErrObj = false := by
  exact ⟨rfl, rfl⟩

/-- C8 amended: every response any embedded handler writes carries a
status from the documented set (200, 201, 400, 401, 403, 404, 409, 500),
and every failure-status response carries one of the three failure body
shapes the controllers actually use: a single-"error" object, an
"error"-plus-"details" object, or a single-"message" object (the latter
only on empty search results). -/
theorem responses_well_shaped (env : Env) (id q : String)
    (svcU : Option User × Option String) (lsvcU : Except String (List User))
    (bindI : Except String Int) (svcEU : Except String User)
    (bindUp : Except String UpdateUserDTO) (getU : Except UserGetErr User)
    (updErr : Option String) (bindC : Except String CreateUserDTO)
    (db : List User) (cerr : Option String) (idp : Option Int)
    (svcA : Option Appointment × Option String)
    (lsvcA : Except String (List Appointment)) (idpN : Option Nat)
    (rsvc : Except String RoleRec) (psvc : Except String (List Nat))
    (usvc : Except String UserStateType)
    (bindB : Except String (List BillingItemDTO)) (bsvc : Except String Int)
    (bindE : Except String CreateEmployeeDTO) (edb : List Employee)
    (ecerr : Option String)
    (esvc : Option AdditionalExpense × Option String)
    (isvc : Except String Item) (lsvcI : Except String (List Item)) :
    wellShapedResult (getUserByID env id svcU) = true ∧
    wellShapedResult (getAllUsers env lsvcU) = true ∧
    wellShapedResult (searchUsersByID env q lsvcU) = true ∧
    wellShapedResult (searchUsersByEmail env q lsvcU) = true ∧
    wellShapedResult (updateUserState env id bindI svcEU) = true ∧
    wellShapedResult (updateUser env id bindUp getU updErr) = true ∧
    wellShapedResult ((createUser env bindC db cerr).1) = true ∧
    wellShapedResult (getAppointmentByID env id idp svcA) = true ∧
    wellShapedResult (getAllAppointments env lsvcA) = true ∧
    wellShapedResult (searchAppointmentsByID env q lsvcA) = true ∧
    wellShapedResult (getRoleByID env idpN rsvc psvc) = true ∧
    wellShapedResult (getUserStateTypeByID env id usvc) = true ∧
    wellShapedResult (calculateSubtotal env bindB bsvc) = true ∧
    wellShapedResult ((createEmployee env bindE edb ecerr).1) = true ∧
    wellShapedResult (getAdditionalExpenseByID env id esvc) = true ∧
    wellShapedResult (getItemByID env id isvc) = true ∧
    wellShapedResult (getAllItems env lsvcI) = true := by
  refine ⟨?_, ?_, ?_, ?_, ?_, ?_, ?_, ?_, ?_, ?_, ?_, ?_, ?_, ?_, ?_, ?_, ?_⟩
  · rcases svcU with ⟨u, er⟩
    cases h1 : env.logErr ("Attempting to retrieve user with ID: " ++ id) <;>
      cases hg : env.perm PERMISSION_GET_USER_BY_ID <;> cases u <;> cases er <;>
      simp [getUserByID, wellShapedResult, Response.wellShaped, allowedStatus,
        Body.isFailureShape, h1, hg]
  · cases h1 : env.logErr "Attempting to retrieve all users" <;>
      cases hg : env.perm PERMISSION_GET_ALL_USERS <;> cases lsvcU <;>
      simp [getAllUsers, wellShapedResult, Response.wellShaped, allowedStatus,
        Body.isFailureShape, h1, hg]
  · cases h1 : env.logErr ("Attempting to search users by ID with query: " ++ q) <;>
      cases hg : env.perm PERMISSION_SEARCH_USER_BY_ID <;>
      cases hq : q == "" <;>
      rcases lsvcU with e | (_ | ⟨x, xs⟩) <;>
      simp [searchUsersByID, wellShapedResult, Response.wellShaped, allowedStatus,
        Body.isFailureShape, h1, hg, hq]
  · cases h1 : env.logErr ("Attempting to search users by email with query: " ++ q) <;>
      cases hg : env.perm PERMISSION_SEARCH_USERS_BY_EMAIL <;>
      cases hq : q == "" <;>
      rcases lsvcU with e | (_ | ⟨x, xs⟩) <;>
      simp [searchUsersByEmail, wellShapedResult, Response.wellShaped,
        allowedStatus, Body.isFailureShape, h1, hg, hq]
  · cases h1 : env.logErr ("Attempting to update user state for ID: " ++ id) <;>
      cases hg : env.perm PERMISSION_UPDATE_USER_STATE <;> cases bindI <;>
      cases svcEU <;>
      simp [updateUserState, wellShapedResult, Response.wellShaped,
        allowedStatus, Body.isFailureShape, h1, hg]
  · cases h1 : env.logErr ("Attempting to update user with ID: " ++ id) <;>
      cases hg : env.perm PERMISSION_UPDATE_USER <;> cases bindUp <;>
      rcases getU with (_ | e) | u <;> cases updErr <;>
      simp [updateUser, wellShapedResult, Response.wellShaped, allowedStatus,
        Body.isFailureShape, h1, hg]
  · cases h1 : env.logErr "Attempting to create new user" <;>
      cases hg : env.perm PERMISSION_CREATE_USER <;> cases bindC <;>
      simp only [createUser, h1, hg, Bool.not_true, Bool.not_false,
        Bool.false_eq_true, if_false, if_true, Bool.true_eq_false]
    all_goals first
      | rfl
      | (rename_i dto
         cases hfind : db.find? (fun u => u.email == dto.email) <;> cases cerr <;>
           simp [hfind, wellShapedResult, Response.wellShaped, allowedStatus,
             Body.isFailureShape])
  · rcases svcA with ⟨a, er⟩
    cases h1 : env.logErr "Attempting to get appointment by ID" <;>
      cases hg : env.perm PERMISSION_GET_APPOINTMENT_BY_ID <;> cases idp <;>
      cases a <;> cases er <;>
      simp [getAppointmentByID, wellShapedResult, Response.wellShaped,
        allowedStatus, Body.isFailureShape, h1, hg]
  · cases h1 : env.logErr "Attempting to retrieve all appointments" <;>
      cases hg : env.perm PERMISSION_GET_ALL_APPOINTMENTS <;> cases lsvcA <;>
      simp [getAllAppointments, wellShapedResult, Response.wellShaped,
        allowedStatus, Body.isFailureShape, h1, hg]
  · cases h1 : env.logErr "Attempting to search appointments by ID" <;>
      cases hg : env.perm PERMISSION_SEARCH_APPOINTMENTS_BY_ID <;>
      rcases lsvcA with e | (_ | ⟨x, xs⟩) <;>
      simp [searchAppointmentsByID, wellShapedResult, Response.wellShaped,
        allowedStatus, Body.isFailureShape, h1, hg]
  · cases hg : env.perm PERMISSION_GET_ROLE_BY_ID <;> cases idpN <;>
      cases rsvc <;> cases psvc <;>
      simp [getRoleByID, wellShapedResult, Response.wellShaped, allowedStatus,
        Body.isFailureShape, hg]
  · cases hg : env.perm PERMISSION_GET_USER_STATE_TYPE_BY_ID <;>
      cases h1 : env.logErr ("Attempting to retrieve user state type with ID: " ++ id) <;>
      cases usvc <;>
      simp [getUserStateTypeByID, wellShapedResult, Response.wellShaped,
        allowedStatus, Body.isFailureShape, h1, hg]
  · cases hg : env.perm PERMISSION_CALCULATE_SUBTOTAL <;> cases bindB <;>
      cases bsvc <;>
      simp [calculateSubtotal, wellShapedResult, Response.wellShaped,
        allowedStatus, Body.isFailureShape, hg]
  · cases h1 : env.logErr "Attempting to create an employee" <;>
      cases hg : env.perm PERMISSION_CREATE_EMPLOYEE <;> cases bindE <;>
      simp only [createEmployee, h1, hg, Bool.not_true, Bool.not_false,
        Bool.false_eq_true, if_false, if_true, Bool.true_eq_false]
    all_goals first
      | rfl
      | (rename_i dto
         by_cases hbad : dto.userID ≤ 0 ∨ dto.identifierTypeID ≤ 0 <;>
           cases hfind : edb.find? (fun emp => emp.personalID == dto.personalID) <;>
           cases ecerr <;>
           simp [hfind, hbad, wellShapedResult, Response.wellShaped,
             allowedStatus, Body.isFailureShape])
  · rcases esvc with ⟨x, er⟩
    cases h1 : env.logErr ("Attempting to retrieve AdditionalExpense with ID: " ++ id) <;>
      cases hg : env.perm PERMISSION_GET_ADDITIONAL_EXPENSE_BY_ID <;>
      cases x <;> cases er <;>
      simp [getAdditionalExpenseByID, wellShapedResult, Response.wellShaped,
        allowedStatus, Body.isFailureShape, h1, hg]
  · cases h1 : env.logErr ("Fetching item by ID: " ++ id) <;> cases isvc <;>
      simp [getItemByID, wellShapedResult, Response.wellShaped, allowedStatus,
        Body.isFailureShape, h1]
  · cases h1 : env.logErr "Fetching all items" <;> cases lsvcI <;>
      simp [getAllItems, wellShapedResult, Response.wellShaped, allowedStatus,
        Body.isFailureShape, h1]

/-! ## Claim C9: the item read operations ignore the principal -/

/-- C9: `GetItemByID` and `GetAllItems` never consult the permission
oracle: two environments differing only in the permission verdicts
produce identical traces and responses, no permission-check event ever
occurs, and once the attempt log write succeeds the item data is
returned (200) regardless of the principal. -/
theorem item_reads_ignore_permissions (le : String → Bool)
    (p1 p2 : Nat → Bool) (id : String) (svc : Except String Item)
    (svcL : Except String (List Item)) (item : Item) (items : List Item)
    (h1 : le ("Fetching item by ID: " ++ id) = false)
    (h2 : le "Fetching all items" = false) :
    getItemByID ⟨le, p1⟩ id svc = getItemByID ⟨le, p2⟩ id svc ∧
    getAllItems ⟨le, p1⟩ svcL = getAllItems ⟨le, p2⟩ svcL ∧
    ((getItemByID ⟨le, p1⟩ id svc).1.all (fun ev => !ev.isPermCheck)) = true ∧
    ((getAllItems ⟨le, p1⟩ svcL).1.all (fun ev => !ev.isPermCheck)) = true ∧
    (getItemByID ⟨le, p1⟩ id (.ok item)).2 =
      some ⟨200, .itemDTO (toGetItemDTO item)⟩ ∧
    (getAllItems ⟨le, p1⟩ (.ok items)).2 =
      some ⟨200, .itemDTOs (items.map toGetItemDTO)⟩ := by
  refine ⟨rfl, rfl, ?_, ?_, ?_, ?_⟩
  · cases svc <;> simp [getItemByID, h1, Event.isPermCheck]
  · cases svcL <;> simp [getAllItems, h2, Event.isPermCheck]
  · simp [getItemByID, h1]
  · simp [getAllItems, h2]

/-- A concrete inventory item. -/
def itemW : Item :=
  ⟨5, "Tire", "winter tire", 10, 100, 80, 1, 2, [⟨3, "paint", 4⟩]⟩

/-- Witness for `item_reads_ignore_permissions`: a grant-all and a
deny-all permission oracle observe the same item responses. -/
theorem item_reads_ignore_permissions_witness :
    getItemByID ⟨fun _ => false, fun _ => true⟩ "5" (.ok itemW) =
      getItemByID ⟨fun _ => false, fun _ => false⟩ "5" (.ok itemW) ∧
    getAllItems ⟨fun _ => false, fun _ => true⟩ (.ok [itemW]) =
      getAllItems ⟨fun _ => false, fun _ => false⟩ (.ok [itemW]) ∧
    ((getItemByID ⟨fun _ => false, fun _ => true⟩ "5" (.ok itemW)).1.all
      (fun ev => !ev.isPermCheck)) = true ∧
    ((getAllItems ⟨fun _ => false, fun _ => true⟩ (.ok [itemW])).1.all
      (fun ev => !ev.isPermCheck)) = true ∧
    (getItemByID ⟨fun _ => false, fun _ => true⟩ "5" (.ok itemW)).2 =
      some ⟨200, .itemDTO (toGetItemDTO itemW)⟩ ∧
    (getAllItems ⟨fun _ => false, fun _ => true⟩ (.ok [itemW])).2 =
      some ⟨200, .itemDTOs ([itemW].map toGetItemDTO)⟩ :=
  item_reads_ignore_permissions (fun _ => false) (fun _ => true)
    (fun _ => false) "5" (.ok itemW) (.ok [itemW]) itemW [itemW] rfl rfl

/-! ## Claim C10: user responses expose the stored password -/

/-- C10: every successful user operation returns a DTO that carries the
stored `Password` field verbatim: the success responses of `GetUserByID`,
`GetAllUsers`, `SearchUsersByID`, `SearchUsersByEmail`, `UpdateUserState`,
`UpdateUser` and `CreateUser` all embed the password of the entity they
return, unredacted. -/
theorem user_responses_expose_password (env : Env) (id q : String) (u : User)
    (us : List User) (cdto : CreateUserDTO) (udto : UpdateUserDTO)
    (db : List User) (stateV : Int)
    (hl : ∀ m, env.logErr m = false) (hp : ∀ p, env.perm p = true)
    (hq : (q == "") = false)
    (hnodup : db.find? (fun x => x.email == cdto.email) = none) :
    (getUserByID env id (some u, none)).2 =
      some ⟨200, .userDTO (toGetUserDTO u)⟩ ∧
    (getAllUsers env (.ok us)).2 =
      some ⟨200, .userDTOs (us.map toGetUserDTO)⟩ ∧
    (searchUsersByID env q (.ok (u :: us))).2 =
      some ⟨200, .userDTOs ((u :: us).map toGetUserDTO)⟩ ∧
    (searchUsersByEmail env q (.ok (u :: us))).2 =
      some ⟨200, .userDTOs ((u :: us).map toGetUserDTO)⟩ ∧
    (updateUserState env id (.ok stateV) (.ok u)).2 =
      some ⟨200, .userDTO (toGetUserDTO u)⟩ ∧
    (updateUser env id (.ok udto) (.ok u) none).2 =
      some ⟨200, .userDTO
        ⟨u.id, udto.email, udto.password, udto.userTypeID, udto.userStateID⟩⟩ ∧
    ((createUser env (.ok cdto) db none).1).2 =
      some ⟨201, .userDTO
        ⟨nextUserId db, cdto.email, cdto.password, cdto.userTypeID,
         cdto.userStateID⟩⟩ ∧
    (toGetUserDTO u).password = u.password ∧
    (us.all (fun x => (toGetUserDTO x).password == x.password)) = true := by
  refine ⟨by simp [getUserByID, hl, hp], by simp [getAllUsers, hl, hp],
    by simp [searchUsersByID, hl, hp, hq], by simp [searchUsersByEmail, hl, hp, hq],
    by simp [updateUserState, hl, hp], ?_, ?_, rfl, ?_⟩
  · simp [updateUser, hl, hp]
    exact rfl
  · simp [createUser, hl, hp, hnodup]
    exact rfl
  · simp [List.all_eq_true, toGetUserDTO]

/-- A second concrete user for the password-exposure witness. -/
def userW : User := ⟨1, "ana@totes.co", "hunter2", 2, 3⟩

/-- Witness for `user_responses_expose_password` at concrete users whose
stored passwords appear verbatim in every success response. -/
theorem user_responses_expose_password_witness :
    (getUserByID okEnv "1" (some userW, none)).2 =
      some ⟨200, .userDTO (toGetUserDTO userW)⟩ ∧
    (getAllUsers okEnv (.ok [userW])).2 =
      some ⟨200, .userDTOs ([userW].map toGetUserDTO)⟩ ∧
    (searchUsersByID okEnv "1" (.ok (userW :: [userW]))).2 =
      some ⟨200, .userDTOs ((userW :: [userW]).map toGetUserDTO)⟩ ∧
    (searchUsersByEmail okEnv "1" (.ok (userW :: [userW]))).2 =
      some ⟨200, .userDTOs ((userW :: [userW]).map toGetUserDTO)⟩ ∧
    (updateUserState okEnv "1" (.ok 2) (.ok userW)).2 =
      some ⟨200, .userDTO (toGetUserDTO userW)⟩ ∧
    (updateUser okEnv "1" (.ok ⟨"b@x.co", "newpw", 4, 5⟩) (.ok userW) none).2 =
      some ⟨200, .userDTO ⟨userW.id, "b@x.co", "newpw", 4, 5⟩⟩ ∧
    ((createUser okEnv (.ok ⟨"c@x.co", "pw3", 1, 1⟩) [] none).1).2 =
      some ⟨201, .userDTO ⟨nextUserId [], "c@x.co", "pw3", 1, 1⟩⟩ ∧
    (toGetUserDTO userW).password = userW.password ∧
    ([userW].all (fun x => (toGetUserDTO x).password == x.password)) = true :=
  user_responses_expose_password okEnv "1" "1" userW [userW]
    ⟨"c@x.co", "pw3", 1, 1⟩ ⟨"b@x.co", "newpw", 4, 5⟩ [] 2
    (fun _ => rfl) (fun _ => rfl) rfl rfl

end Totes
